import Mathlib

/-!  Verification of the boomcatch waterfall-svg mapper
     (src/mappers/waterfall-svg/index.js) against its specification.

     JavaScript numbers are modelled as exact rationals; `JsNum` adds the
     undefined and NaN values at the places where property reads and
     arithmetic can produce them.  Computations that can throw are modelled
     with `Option` (for exceptions escaping the geometry builder) and
     `Except String` (for validation errors carrying a message).  -/

namespace Waterfall

/-- A JavaScript numeric value as it flows through `mapTiming`:
a finite number, NaN, or undefined (the read of a missing object property). -/
inductive JsNum where
  | undefined : JsNum
  | nan : JsNum
  | num : ℚ → JsNum
deriving DecidableEq, Repr

/-- JavaScript subtraction: any operand that is undefined or NaN gives NaN. -/
def JsNum.sub : JsNum → JsNum → JsNum
  | .num a, .num b => .num (a - b)
  | _, _ => .nan

/-- A sub-event of a raw resource-timing entry: `events[name] = {start, end}`.
`endTime` models the JS property `end` (a reserved word in Lean). -/
structure TimingEvent where
  start : ℚ
  endTime : ℚ
deriving DecidableEq, Repr

/-- `resource.timestamps`: `start` and `fetchStart` are numeric;
`requestStart` is optional (`none` models the property being absent). -/
structure Timestamps where
  start : ℚ
  fetchStart : ℚ
  requestStart : Option ℚ := none
deriving DecidableEq, Repr

/-- One raw resource-timing entry of `beaconData.restiming`.  The `events`
object is modelled as its list of key/value entries in insertion order
(JavaScript object keys are distinct). -/
structure RawResource where
  name : String
  type : String
  timestamps : Timestamps
  events : List (String × TimingEvent)
deriving DecidableEq, Repr

/-- `Object.keys(resource.events)`. -/
def objectKeys (events : List (String × TimingEvent)) : List String :=
  events.map Prod.fst

/-- JavaScript property lookup `resource.events[name]`. -/
def RawResource.lookupEvent (resource : RawResource) (name : String) : Option TimingEvent :=
  (resource.events.find? fun e => e.fst == name).map Prod.snd

/-- Source lines 117-125.  The fold step of the duration computation: keep the
larger of the running `duration` and this event's `end - timestamps.start`.
The `none` branch is unreachable from `mapResource`, which folds over the
keys of `resource.events` itself. -/
def getResourceDuration (resource : RawResource) (duration : ℚ) (eventName : String) : ℚ :=
  match resource.lookupEvent eventName with
  | some e =>
      let eventDuration := e.endTime - resource.timestamps.start
      if eventDuration > duration then eventDuration else duration
  | none => duration

/-- The `duration` computed at source lines 91-94:
`Object.keys(resource.events).reduce(getResourceDuration.bind(null, resource),
resource.timestamps.fetchStart - resource.timestamps.start)`. -/
def resourceDuration (resource : RawResource) : ℚ :=
  (objectKeys resource.events).foldl (getResourceDuration resource)
    (resource.timestamps.fetchStart - resource.timestamps.start)

/-- The object passed as `event` to `mapTiming`.  Reading an absent field
gives `undefined`.  The synthetic blocked object built at source line 103 carries
`start` and `duration` but no `end`, so its `endTime` is `undefined`. -/
structure TimingArg where
  start : JsNum := .undefined
  endTime : JsNum := .undefined
  duration : JsNum := .undefined
deriving DecidableEq, Repr

/-- One entry of `result.timings`.  The `blocked` property is absent (read as
false) unless the mutation at source line 112 sets it. -/
structure Segment where
  name : String
  start : JsNum
  duration : JsNum
  blocked : Bool := false
deriving DecidableEq, Repr

/-- Source lines 127-137.  When `event` is falsy the source recurses once with
the literal `{start: 0, end: 0}`; the recursion is inlined here as a default.
Note that the segment's duration is computed as `event.end - event.start`,
whatever other fields the argument object carries. -/
def mapTiming (name : String) (event : Option TimingArg) : Segment :=
  let ev := event.getD { start := .num 0, endTime := .num 0 }
  { name := name, start := ev.start, duration := ev.endTime.sub ev.start }

/-- Source lines 139-141. -/
def mapEvent (name : String) (resource : RawResource) : Segment :=
  mapTiming name ((resource.lookupEvent name).map fun e =>
    { start := .num e.start, endTime := .num e.endTime })

/-- JavaScript truthiness of the optional numeric `timestamps.requestStart`:
an absent property and the number 0 are falsy. -/
def jsTruthy : Option ℚ → Bool
  | none => false
  | some q => q != 0

/-- Source lines 143-154.  `requestTiming` stays undefined unless
`timestamps.requestStart` is truthy and `events.response` is present. -/
def mapRequestTiming (resource : RawResource) : Segment :=
  let requestTiming : Option TimingArg :=
    match resource.timestamps.requestStart, resource.lookupEvent "response" with
    | some rs, some response =>
        if rs != 0 then some { start := .num rs, endTime := .num response.start } else none
    | _, _ => none
  mapTiming "request" requestTiming

/-- The normalized resource built by `mapResource`. -/
structure NormalizedResource where
  page : String
  name : String
  type : String
  start : ℚ
  duration : ℚ
  timings : List Segment
deriving DecidableEq, Repr

/-- The mutation `result.timings[0].blocked = true` at source line 112. -/
def setHeadBlocked : List Segment → List Segment
  | [] => []
  | t :: rest => { t with blocked := true } :: rest

/-- Source lines 88-115. -/
def mapResource (referer : String) (resource : RawResource) : NormalizedResource :=
  let duration := resourceDuration resource
  { page := referer
    name := resource.name
    type := resource.type
    start := resource.timestamps.start
    duration := duration
    timings := setHeadBlocked
      [ mapTiming "blocked" (some { start := .num resource.timestamps.start,
                                    duration := .num duration }),
        mapEvent "redirect" resource,
        mapEvent "dns" resource,
        mapEvent "connect" resource,
        mapRequestTiming resource,
        mapEvent "response" resource ] }

/-! ## Chart geometry builder -/

/-- The floor of a rational, by flooring division of numerator by denominator
(kept kernel-computable; `ratFloor_eq` relates it to `Int.floor`). -/
def ratFloor (q : ℚ) : ℤ := q.num.fdiv q.den

/-- The ceiling of a rational (`Math.ceil`); `ratCeil_eq` relates it to
`Int.ceil`. -/
def ratCeil (q : ℚ) : ℤ := -ratFloor (-q)

/-- Truncation toward zero, the rounding JavaScript applies to the quotient
inside the remainder operator. -/
def ratTrunc (q : ℚ) : ℤ := if 0 ≤ q then ratFloor q else -ratFloor (-q)

/-- The JavaScript remainder `a % b`: `a - b * trunc(a / b)`; when the divisor
is 0 the result is NaN, modelled as `none` (the NaN then poisons every later
arithmetic step up to the `new Array` call, which throws on it). -/
def jsMod (a b : ℚ) : Option ℚ :=
  if b = 0 then none else some (a - b * (ratTrunc (a / b) : ℚ))

/-- `new Array(q)` succeeds only when `q` is a non-negative integer, else it
throws `RangeError: Invalid array length` (the 2^32 bound is not modelled). -/
def arrayLength (q : ℚ) : Option ℕ :=
  if q.den = 1 ∧ 0 ≤ q.num then some q.num.toNat else none

structure Offset where
  x : ℚ
  y : ℚ
deriving DecidableEq, Repr

structure Colour where
  name : String
  value : String
  fg : String
deriving DecidableEq, Repr

/-- A validated settings object, as the geometry builder receives it (the
derived fields `getSettings` adds after validation play no part here). -/
structure Settings where
  width : ℚ
  offset : Offset
  barHeight : ℚ
  padding : ℚ
  colours : List Colour
deriving DecidableEq, Repr

/-- Source lines 170-172.  Note the use of `offset.x` for vertical sizing. -/
def getSvgHeight (settings : Settings) (resources : List NormalizedResource) : ℚ :=
  ((resources.length : ℚ) + 1) * (settings.barHeight + settings.padding) + settings.offset.x

/-- Source lines 209-217 (the source's local `end` is renamed `e`). -/
def getMaximumValue (maximum : ℚ) (resource : NormalizedResource) : ℚ :=
  let e := resource.start + resource.duration
  if e > maximum then e else maximum

/-- One axis tick as the tick-filling callback would build it. -/
structure Tick where
  x : ℚ
  height : ℚ
  value : ℚ
deriving DecidableEq, Repr

/-- Source lines 200-206: the inner `getXPosition`. -/
def getXPosition (minimum pixelsPerUnit value : ℚ) : ℚ :=
  if value = 0 then 0 else (value - minimum) * pixelsPerUnit

/-- The body of the forEach callback at source lines 188-196, applied at tick
`index`.  `Array.prototype.forEach` visits no holes of a sparse array
(ECMA-262 23.1.3.15), and `new Array(n)` is all holes, so this callback never
executes and no tick element is ever assigned; it is transcribed here to
state what the assignments would have produced. -/
def svgTickAt (minimum pixelsPerUnit height step : ℚ) (index : ℕ) : Tick :=
  let value := (index : ℚ) * step
  { x := getXPosition minimum pixelsPerUnit value, height := height, value := value }

set_option linter.unusedVariables false in
/-- Source lines 174-207.  The result is `none` when the code throws: on an
empty resource list (`resources[0].start` is a TypeError), and whenever the
length passed to `new Array` is not a non-negative integer — in particular
when `step = 0`, where `maximum % step` is NaN and propagates into the array
length.  On success the returned array keeps every element unassigned
(`none`), because `forEach` skips the holes of `new Array(n)`; `width`,
`height` and `pixelsPerUnit` are computed as in the source but never read. -/
def getSvgTicks (settings : Settings) (resources : List NormalizedResource) :
    Option (List (Option Tick)) :=
  match resources with
  | [] => none
  | r0 :: _ =>
    let minimum := r0.start
    let maximum := resources.foldl getMaximumValue 0
    let step : ℚ := ((ratCeil ((maximum - minimum) / 5) : ℤ) : ℚ)
    match jsMod maximum step, jsMod minimum step with
    | some maxMod, some minMod =>
        let maximum := maximum + step - maxMod
        let minimum := minimum - minMod
        let difference := maximum - minimum
        let width := settings.width - settings.offset.x
        let height := (resources.length : ℚ) * (settings.barHeight + settings.padding)
        let pixelsPerUnit := width / difference
        match arrayLength (difference / step) with
        | some len => some (List.replicate len none)
        | none => none
    | _, _ => none

set_option linter.unusedVariables false in
/-- Source lines 219-220: the function body is empty, so every call returns
undefined. -/
def mapSvgResource (settings : Settings) (resource : NormalizedResource) (index : ℕ) :
    Option Unit := none

/-- The object built by `customiseSvgSettings`: every field of `settings` is
copied (kept whole here as `base`), then `height`, `ticks` and `resources`
are added. -/
structure CustomisedSettings where
  base : Settings
  height : ℚ
  ticks : List (Option Tick)
  resources : List (Option Unit)
deriving DecidableEq, Repr

/-- Source lines 156-168; `none` models the exception escaping from
`getSvgTicks`. -/
def customiseSvgSettings (settings : Settings) (resources : List NormalizedResource) :
    Option CustomisedSettings :=
  (getSvgTicks settings resources).map fun ticks =>
    { base := settings
      height := getSvgHeight settings resources
      ticks := ticks
      resources := resources.enum.map fun p => mapSvgResource settings p.snd p.fst }

/-! ## Top-level map -/

/-- An untyped JSON/JavaScript value, as unvalidated input arrives. -/
inductive JsVal where
  | undefined : JsVal
  | null : JsVal
  | bool : Bool → JsVal
  | num : ℚ → JsVal
  | str : String → JsVal
  | arr : List JsVal → JsVal
  | obj : List (String × JsVal) → JsVal

/-- The `restiming` field of the beacon payload: an array of raw resources,
or `other v` for any value `Array.isArray` rejects (an absent field is
`other JsVal.undefined`). -/
inductive RestimingField where
  | arr : List RawResource → RestimingField
  | other : JsVal → RestimingField

/-- `Array.isArray(data.restiming)`. -/
def RestimingField.isArray : RestimingField → Bool
  | .arr _ => true
  | .other _ => false

/-- The beacon payload; `map` reads only `restiming`. -/
structure BeaconData where
  restiming : RestimingField

/-- The `{svg, details}` object handed to the template. -/
structure RenderModel where
  svg : CustomisedSettings
  details : List NormalizedResource

/-- Source lines 73-86.  `template` is the compiled handlebars template, a
function the mapper never inspects; `none` models an exception escaping the
call. -/
def map (template : RenderModel → String) (settings : Settings) (data : BeaconData)
    (referer : String) : Option String :=
  match data.restiming with
  | .arr restiming =>
      let resources := restiming.map (mapResource referer)
      (customiseSvgSettings settings resources).map fun svg =>
        template { svg := svg, details := resources }
  | .other _ => some ""

/-! ## Settings validation -/

def JsVal.isPositiveNumber : JsVal → Bool
  | .num q => q > 0
  | _ => false

/-- `check.isObject`: a non-null object that is not an array. -/
def JsVal.isObject : JsVal → Bool
  | .obj _ => true
  | _ => false

def JsVal.isUnemptyString : JsVal → Bool
  | .str s => s != ""
  | _ => false

/-- JavaScript property read `v[name]`: undefined unless `v` is an object
carrying the field. -/
def JsVal.getField : JsVal → String → JsVal
  | .obj fields, name => (((fields.find? fun f => f.fst == name)).map Prod.snd).getD .undefined
  | _, _ => .undefined

/-- The unvalidated settings object: the five fields `verifySettings` reads,
each an arbitrary value. -/
structure RawSettings where
  width : JsVal := .undefined
  offset : JsVal := .undefined
  barHeight : JsVal := .undefined
  padding : JsVal := .undefined
  colours : JsVal := .undefined

/-- Source lines 65-70: the per-colour checks, at a given index. -/
def verifyColour (index : ℕ) (colour : JsVal) : Except String Unit :=
  if !colour.isObject then .error ("Invalid SVG colour [" ++ toString index ++ "]")
  else if !(colour.getField "name").isUnemptyString then
    .error ("Invalid SVG colour name [" ++ toString index ++ "]")
  else if !(colour.getField "value").isUnemptyString then
    .error ("Invalid SVG colour value [" ++ toString index ++ "]")
  else if !(colour.getField "fg").isUnemptyString then
    .error ("Invalid SVG foreground colour [" ++ toString index ++ "]")
  else .ok ()

/-- `settings.colours.forEach(...)`: stop at the first throwing check. -/
def verifyColours : ℕ → List JsVal → Except String Unit
  | _, [] => .ok ()
  | index, colour :: rest =>
    match verifyColour index colour with
    | .ok _ => verifyColours (index + 1) rest
    | .error msg => .error msg

/-- Source lines 52-71.  Each `check.verify.*` throws its message unless the
check holds, so the statement sequence becomes an early-error chain; note the
third and fourth checks both test `settings.offset.x`. -/
def verifySettings (settings : RawSettings) : Except String Unit :=
  if !settings.width.isPositiveNumber then .error "Invalid SVG width"
  else if !settings.offset.isObject then .error "Invalid SVG offset"
  else if !(settings.offset.getField "x").isPositiveNumber then .error "Invalid SVG x offset"
  else if !(settings.offset.getField "x").isPositiveNumber then .error "Invalid SVG y offset"
  else if !settings.barHeight.isPositiveNumber then .error "Invalid SVG bar height"
  else if !settings.padding.isPositiveNumber then .error "Invalid SVG padding"
  else match settings.colours with
    | .arr colours =>
        if colours.length != 6 then .error "Incorrect number of SVG colours"
        else verifyColours 0 colours
    | _ => .error "Invalid SVG colours"

/-! ## Concrete inputs used by the claims -/

/-- The example raw resource of spec section 8:
`{start:100, fetchStart:120, requestStart:140,
events:{dns:{start:105,end:115}, response:{start:150,end:200}}}`. -/
def specExample : RawResource :=
  { name := "example"
    type := "script"
    timestamps := { start := 100, fetchStart := 120, requestStart := some 140 }
    events := [("dns", { start := 105, endTime := 115 }),
               ("response", { start := 150, endTime := 200 })] }

/-- A raw resource with no events and no `requestStart`. -/
def bareResource : RawResource :=
  { name := "bare"
    type := "img"
    timestamps := { start := 10, fetchStart := 30 }
    events := [] }

/-- A small validated settings value. -/
def exampleSettings : Settings :=
  { width := 630
    offset := { x := 10, y := 50 }
    barHeight := 20
    padding := 2
    colours := [] }

/-- A normalized resource for feeding the geometry builder directly. -/
def geomResource (s d : ℚ) : NormalizedResource :=
  { page := "p", name := "r", type := "script", start := s, duration := d, timings := [] }

/-- A colour entry that passes every per-colour check. -/
def goodColour : JsVal :=
  .obj [("name", .str "blocked"), ("value", .str "#FFFFFF"), ("fg", .str "#000000")]

/-- A colour entry with `name` and `value` but no `fg` field. -/
def colourMissingFg : JsVal :=
  .obj [("name", .str "text"), ("value", .str "#00FFFF")]

/-- An unvalidated settings value that passes `verifySettings`. -/
def goodSettings : RawSettings :=
  { width := .num 800
    offset := .obj [("x", .num 10), ("y", .num 50)]
    barHeight := .num 20
    padding := .num 2
    colours := .arr (List.replicate 6 goodColour) }

/-! ## Helper lemmas on the duration fold -/

/-- The span `end - timestamps.start` the fold compares against, when the
event is present. -/
def eventSpan (resource : RawResource) (eventName : String) : Option ℚ :=
  (resource.lookupEvent eventName).map fun e => e.endTime - resource.timestamps.start

lemma if_gt_eq_max (d v : ℚ) : (if v > d then v else d) = max d v := by
  rcases lt_or_le d v with h | h
  · rw [if_pos h, max_eq_right h.le]
  · rw [if_neg (not_lt.mpr h), max_eq_left h]

lemma getResourceDuration_none (r : RawResource) (d : ℚ) (k : String)
    (h : r.lookupEvent k = none) : getResourceDuration r d k = d := by
  unfold getResourceDuration
  rw [h]

lemma getResourceDuration_some (r : RawResource) (d : ℚ) (k : String) (e : TimingEvent)
    (h : r.lookupEvent k = some e) :
    getResourceDuration r d k = max d (e.endTime - r.timestamps.start) := by
  unfold getResourceDuration
  rw [h]
  show (if e.endTime - r.timestamps.start > d then e.endTime - r.timestamps.start else d)
    = max d (e.endTime - r.timestamps.start)
  rw [if_gt_eq_max]

lemma getResourceDuration_eq_max (r : RawResource) (d : ℚ) (k : String) :
    getResourceDuration r d k = (eventSpan r k).elim d (fun v => max d v) := by
  cases h : r.lookupEvent k with
  | none => rw [getResourceDuration_none r d k h]; simp [eventSpan, h]
  | some e => rw [getResourceDuration_some r d k e h]; simp [eventSpan, h]

lemma foldl_duration_eq_foldl_max (r : RawResource) (ks : List String) (init : ℚ) :
    ks.foldl (getResourceDuration r) init = (ks.filterMap (eventSpan r)).foldl max init := by
  induction ks generalizing init with
  | nil => rfl
  | cons k ks ih =>
      rw [List.foldl_cons, getResourceDuration_eq_max]
      cases h : eventSpan r k with
      | none => simp only [Option.elim_none, List.filterMap_cons, h, ih]
      | some v => simp only [Option.elim_some, List.filterMap_cons, h, List.foldl_cons, ih]

lemma filterMap_eventSpan_of_nodup (r : RawResource) (h : (r.events.map Prod.fst).Nodup) :
    (objectKeys r.events).filterMap (eventSpan r)
      = r.events.map fun e => e.snd.endTime - r.timestamps.start := by
  unfold objectKeys eventSpan RawResource.lookupEvent
  generalize hev : r.events = l at h
  clear hev
  induction l with
  | nil => rfl
  | cons e l ih =>
      rw [List.map_cons, List.nodup_cons] at h
      rw [List.map_cons, List.filterMap_cons]
      have hhead : (List.find? (fun x => x.fst == e.fst) (e :: l)) = some e := by
        simp [List.find?_cons]
      rw [hhead]
      have htail : ∀ k ∈ l.map Prod.fst,
          ((List.find? (fun x => x.fst == k) (e :: l)).map Prod.snd).map
              (fun ev => ev.endTime - r.timestamps.start)
            = ((List.find? (fun x => x.fst == k) l).map Prod.snd).map
              (fun ev => ev.endTime - r.timestamps.start) := by
        intro k hk
        have hne : (e.fst == k) = false := by
          rcases List.mem_map.mp hk with ⟨a, ha, rfl⟩
          exact beq_false_of_ne fun hke => h.1 (hke ▸ List.mem_map_of_mem Prod.fst ha)
        rw [List.find?_cons, hne]
      rw [List.filterMap_congr htail, ih h.2]
      simp

lemma init_le_foldl_max (l : List ℚ) (init : ℚ) : init ≤ l.foldl max init := by
  induction l generalizing init with
  | nil => exact le_refl init
  | cons x xs ih => exact le_trans (le_max_left init x) (ih (max init x))

lemma mem_le_foldl_max {x : ℚ} {l : List ℚ} (hx : x ∈ l) (init : ℚ) :
    x ≤ l.foldl max init := by
  induction l generalizing init with
  | nil => cases hx
  | cons y ys ih =>
      rcases List.mem_cons.mp hx with rfl | hmem
      · exact le_trans (le_max_right init x) (init_le_foldl_max ys (max init x))
      · exact ih hmem (max init y)

lemma getResourceDuration_right_comm (r : RawResource) (d : ℚ) (a b : String) :
    getResourceDuration r (getResourceDuration r d a) b
      = getResourceDuration r (getResourceDuration r d b) a := by
  rw [getResourceDuration_eq_max, getResourceDuration_eq_max,
    getResourceDuration_eq_max, getResourceDuration_eq_max]
  cases eventSpan r a with
  | none => rfl
  | some u =>
      cases eventSpan r b with
      | none => rfl
      | some v => simp only [Option.elim]; exact sup_right_comm d u v

/-! ## C1 -/

/-- C1: for a raw resource with numeric `timestamps.start` and
`timestamps.fetchStart` (and distinct event keys, as JavaScript objects
guarantee), the duration computed by `mapResource` equals the maximum of
`fetchStart - start` and every present event's `end - start`; hence it is at
least `fetchStart - start` and at least `end - start` of every present event.
On the spec's example the duration is 100. -/
theorem resourceDuration_is_max_of_spans :
    (∀ r : RawResource, (r.events.map Prod.fst).Nodup →
      resourceDuration r
          = (r.events.map fun e => e.snd.endTime - r.timestamps.start).foldl max
              (r.timestamps.fetchStart - r.timestamps.start)
        ∧ r.timestamps.fetchStart - r.timestamps.start ≤ resourceDuration r
        ∧ ∀ e ∈ r.events, e.snd.endTime - r.timestamps.start ≤ resourceDuration r)
    ∧ resourceDuration specExample = 100
    ∧ (mapResource "page" specExample).duration = 100 := by
  have key : ∀ r : RawResource, (r.events.map Prod.fst).Nodup →
      resourceDuration r
        = (r.events.map fun e => e.snd.endTime - r.timestamps.start).foldl max
            (r.timestamps.fetchStart - r.timestamps.start) := by
    intro r h
    rw [resourceDuration, foldl_duration_eq_foldl_max, filterMap_eventSpan_of_nodup r h]
  have hspec : resourceDuration specExample = 100 := by
    rw [key specExample (by decide)]
    norm_num [specExample]
  refine ⟨fun r h => ⟨key r h, ?_, ?_⟩, hspec, ?_⟩
  · rw [key r h]; exact init_le_foldl_max _ _
  · intro e he
    rw [key r h]
    exact mem_le_foldl_max (List.mem_map_of_mem _ he) _
  · show resourceDuration specExample = 100
    exact hspec

/-! ## C10 -/

/-- C10: the duration computed by `mapResource` does not depend on the
enumeration order of the event keys: folding `getResourceDuration` from
`fetchStart - start` over any permutation of the key sequence gives the value
`resourceDuration` computes; checked concretely on the spec's example with
its two keys reversed. -/
theorem resourceDuration_key_order_irrelevant :
    (∀ (r : RawResource) (ks : List String), (objectKeys r.events).Perm ks →
      ks.foldl (getResourceDuration r)
          (r.timestamps.fetchStart - r.timestamps.start) = resourceDuration r)
    ∧ ["response", "dns"].foldl (getResourceDuration specExample)
        (specExample.timestamps.fetchStart - specExample.timestamps.start)
      = resourceDuration specExample := by
  have key : ∀ (r : RawResource) (ks : List String), (objectKeys r.events).Perm ks →
      ks.foldl (getResourceDuration r)
        (r.timestamps.fetchStart - r.timestamps.start) = resourceDuration r := by
    intro r ks h
    rw [resourceDuration]
    exact (h.foldl_eq'
      (fun x _ y _ z => getResourceDuration_right_comm r z x y) _).symm
  refine ⟨key, key specExample _ (by decide)⟩

/-! ## Helper lemmas on segments -/

/-- The zero-length fallback segment `mapTiming` builds from `{start:0, end:0}`. -/
lemma mapTiming_none (n : String) :
    mapTiming n none = { name := n, start := JsNum.num 0, duration := JsNum.num 0 } := by
  simp [mapTiming, JsNum.sub]

lemma mapTiming_name (n : String) (ev : Option TimingArg) : (mapTiming n ev).name = n := rfl

lemma mapTiming_blocked (n : String) (ev : Option TimingArg) :
    (mapTiming n ev).blocked = false := rfl

lemma mapEvent_of_absent (n : String) (r : RawResource) (h : r.lookupEvent n = none) :
    mapEvent n r = { name := n, start := JsNum.num 0, duration := JsNum.num 0 } := by
  rw [mapEvent, h]
  exact mapTiming_none n

lemma mapResource_timings (referer : String) (r : RawResource) :
    (mapResource referer r).timings
      = [{ mapTiming "blocked" (some { start := .num r.timestamps.start,
                                       duration := .num (resourceDuration r) })
             with blocked := true },
         mapEvent "redirect" r,
         mapEvent "dns" r,
         mapEvent "connect" r,
         mapRequestTiming r,
         mapEvent "response" r] := rfl

/-! ## C2 -/

/-- C2: the timings sequence always has exactly 6 entries, named in the fixed
order blocked, redirect, dns, connect, request, response; for each of
redirect, dns, connect and response, an event absent from `events` yields the
placeholder segment with start 0 and duration 0.  Checked concretely on a
resource with no events at all. -/
theorem timings_fixed_shape :
    (∀ (referer : String) (r : RawResource),
        (mapResource referer r).timings.length = 6
      ∧ (mapResource referer r).timings.map Segment.name
          = ["blocked", "redirect", "dns", "connect", "request", "response"]
      ∧ (r.lookupEvent "redirect" = none → (mapResource referer r).timings[1]?
          = some { name := "redirect", start := JsNum.num 0, duration := JsNum.num 0 })
      ∧ (r.lookupEvent "dns" = none → (mapResource referer r).timings[2]?
          = some { name := "dns", start := JsNum.num 0, duration := JsNum.num 0 })
      ∧ (r.lookupEvent "connect" = none → (mapResource referer r).timings[3]?
          = some { name := "connect", start := JsNum.num 0, duration := JsNum.num 0 })
      ∧ (r.lookupEvent "response" = none → (mapResource referer r).timings[5]?
          = some { name := "response", start := JsNum.num 0, duration := JsNum.num 0 }))
    ∧ (mapResource "page" bareResource).timings[1]?
        = some { name := "redirect", start := JsNum.num 0, duration := JsNum.num 0 } := by
  constructor
  · intro referer r
    refine ⟨rfl, ?_, ?_, ?_, ?_, ?_⟩
    · rw [mapResource_timings]
      simp [mapEvent, mapTiming_name]
      rfl
    · intro h
      rw [mapResource_timings]
      simp [mapEvent_of_absent "redirect" r h]
    · intro h
      rw [mapResource_timings]
      simp [mapEvent_of_absent "dns" r h]
    · intro h
      rw [mapResource_timings]
      simp [mapEvent_of_absent "connect" r h]
    · intro h
      rw [mapResource_timings]
      simp [mapEvent_of_absent "response" r h]
  · rw [mapResource_timings]
    simp [mapEvent_of_absent "redirect" bareResource rfl]

/-! ## C3 -/

/-- C3 (code bug): the first timings entry is the synthetic blocked segment,
it starts at the resource's start and it is the only segment flagged
`blocked`, but its duration is NaN, not the computed total duration: the
object built at source line 103 carries a `duration` field while `mapTiming`
reads `event.end`, so it computes `undefined - start`.  Evaluated on the
spec's example, whose computed total duration is 100. -/
theorem blocked_segment_duration_is_nan :
    (mapResource "page" specExample).start = 100
    ∧ (mapResource "page" specExample).duration = 100
    ∧ (mapResource "page" specExample).timings.head?
        = some { name := "blocked", start := JsNum.num 100, duration := JsNum.nan,
                 blocked := true }
    ∧ (mapResource "page" specExample).timings.countP (fun s => s.blocked) = 1
    ∧ JsNum.nan ≠ JsNum.num 100 := by
  have hdur : resourceDuration specExample = 100 := by
    rw [resourceDuration, foldl_duration_eq_foldl_max,
      filterMap_eventSpan_of_nodup specExample (by decide)]
    norm_num [specExample]
  exact ⟨rfl, hdur, rfl, rfl, by simp⟩

/-! ## C4 -/

/-- C4: the request segment (index 4 of timings) is the one `mapRequestTiming`
builds; it differs from the `{start:0, duration:0}` placeholder exactly when
`timestamps.requestStart` is truthy and `events.response` is present, and when
materialized its start is `requestStart` and its duration is
`events.response.start - requestStart`.  On the spec's example
(`requestStart` 140, `response.start` 150) it has start 140 and duration 10. -/
theorem request_segment_materialization :
    (∀ (referer : String) (r : RawResource),
        (mapResource referer r).timings[4]? = some (mapRequestTiming r))
    ∧ (∀ r : RawResource,
        mapRequestTiming r
            ≠ { name := "request", start := JsNum.num 0, duration := JsNum.num 0 }
          ↔ jsTruthy r.timestamps.requestStart = true
            ∧ (r.lookupEvent "response").isSome = true)
    ∧ (∀ (r : RawResource) (q : ℚ) (e : TimingEvent),
        r.timestamps.requestStart = some q → jsTruthy r.timestamps.requestStart = true →
        r.lookupEvent "response" = some e →
        mapRequestTiming r
          = { name := "request", start := JsNum.num q, duration := JsNum.num (e.start - q) })
    ∧ mapRequestTiming specExample
        = { name := "request", start := JsNum.num 140, duration := JsNum.num 10 } := by
  have hsome : ∀ (r : RawResource) (q : ℚ) (e : TimingEvent),
      r.timestamps.requestStart = some q → q ≠ 0 → r.lookupEvent "response" = some e →
      mapRequestTiming r
        = { name := "request", start := JsNum.num q, duration := JsNum.num (e.start - q) } := by
    intro r q e hq hq0 he
    rw [mapRequestTiming, hq, he]
    simp only [bne_iff_ne, ne_eq, hq0, not_false_eq_true, if_true]
    simp [mapTiming, JsNum.sub]
  have hplaceholder : ∀ r : RawResource,
      ¬(jsTruthy r.timestamps.requestStart = true
          ∧ (r.lookupEvent "response").isSome = true) →
      mapRequestTiming r
        = { name := "request", start := JsNum.num 0, duration := JsNum.num 0 } := by
    intro r hnot
    rw [mapRequestTiming]
    rcases hq : r.timestamps.requestStart with _ | q
    · rcases he : r.lookupEvent "response" with _ | e
      · exact mapTiming_none "request"
      · exact mapTiming_none "request"
    · rcases he : r.lookupEvent "response" with _ | e
      · exact mapTiming_none "request"
      · have hq0 : q = 0 := by
          by_contra hq0
          exact hnot ⟨by rw [hq]; simpa [jsTruthy] using hq0, by rw [he]; rfl⟩
        subst hq0
        simp only [bne_self_eq_false, if_false]
        exact mapTiming_none "request"
  constructor
  · intro referer r
    rw [mapResource_timings]
    rfl
  refine ⟨fun r => ⟨?_, ?_⟩, fun r q e hq htr he => ?_, ?_⟩
  · intro hne
    by_contra hnot
    exact hne (hplaceholder r hnot)
  · rintro ⟨htr, hresp⟩ heq
    rcases hq : r.timestamps.requestStart with _ | q
    · rw [hq] at htr; simp [jsTruthy] at htr
    · rcases he : r.lookupEvent "response" with _ | e
      · rw [he] at hresp; simp at hresp
      · have hq0 : q ≠ 0 := by
          rw [hq] at htr; simpa [jsTruthy] using htr
        have := hsome r q e hq hq0 he
        rw [this] at heq
        have : JsNum.num q = JsNum.num 0 := congrArg Segment.start heq
        exact hq0 (by injection this)
  · have hq0 : q ≠ 0 := by rw [hq] at htr; simpa [jsTruthy] using htr
    exact hsome r q e hq hq0 he
  · have h140 : specExample.timestamps.requestStart = some 140 := rfl
    have hresp : specExample.lookupEvent "response"
        = some { start := 150, endTime := 200 } := rfl
    rw [hsome specExample 140 { start := 150, endTime := 200 } h140 (by norm_num) hresp]
    norm_num

/-! ## C5 -/

/-- C5: when the beacon's `restiming` field is absent or not an array, `map`
returns the empty-string sentinel (`some ""`: no exception) for every
template, settings object and referer, performing no mapping work; checked
concretely on a payload whose `restiming` is undefined. -/
theorem map_empty_on_nonarray_restiming :
    (∀ (template : RenderModel → String) (settings : Settings) (data : BeaconData)
        (referer : String), data.restiming.isArray = false →
        map template settings data referer = some "")
    ∧ map (fun _ => "rendered") exampleSettings { restiming := .other .undefined } "referer"
        = some "" := by
  constructor
  · intro template settings data referer h
    rcases data with ⟨rf⟩
    cases rf with
    | arr l => simp [RestimingField.isArray] at h
    | other v => rfl
  · rfl

/-! ## C6 -/

/-- C6: settings validation rejects width 0, width -1, a non-object offset,
barHeight 0, colour arrays of 5 or 7 entries and a colour entry missing `fg`,
each with an error message naming the offending field and no settings
returned; while the fourth check tests `offset.x` again, so a negative or
absent `offset.y` passes validation (only a non-positive `offset.x` is
reported, as `Invalid SVG x offset`). -/
theorem verifySettings_rejections :
    verifySettings { goodSettings with width := .num 0 }
        = .error "Invalid SVG width"
    ∧ verifySettings { goodSettings with width := .num (-1) }
        = .error "Invalid SVG width"
    ∧ verifySettings { goodSettings with offset := .num 5 }
        = .error "Invalid SVG offset"
    ∧ verifySettings { goodSettings with barHeight := .num 0 }
        = .error "Invalid SVG bar height"
    ∧ verifySettings { goodSettings with colours := .arr (List.replicate 5 goodColour) }
        = .error "Incorrect number of SVG colours"
    ∧ verifySettings { goodSettings with colours := .arr (List.replicate 7 goodColour) }
        = .error "Incorrect number of SVG colours"
    ∧ verifySettings { goodSettings with
          colours := .arr (colourMissingFg :: List.replicate 5 goodColour) }
        = .error "Invalid SVG foreground colour [0]"
    ∧ verifySettings goodSettings = .ok ()
    ∧ verifySettings { goodSettings with offset := .obj [("x", .num 10), ("y", .num (-7))] }
        = .ok ()
    ∧ verifySettings { goodSettings with offset := .obj [("x", .num 10)] }
        = .ok ()
    ∧ verifySettings { goodSettings with offset := .obj [("x", .num 0), ("y", .num 50)] }
        = .error "Invalid SVG x offset" := by
  exact ⟨rfl, rfl, rfl, rfl, rfl, rfl, rfl, rfl, rfl, rfl, rfl⟩

/-! ## C7 -/

/-- C7 (code bug): on a well-formed input (one resource from 0 to 100, so
minimum 0, maximum 100, step 20, rounded maximum 120, 6 ticks expected), the
tick array the geometry builder returns has 6 entries but every one of them
is unassigned (`none`): `Array.prototype.forEach` visits no holes of
`new Array(n)`, so the callback that would set `value`, `x` and `height`
never runs.  The transcribed callback body shows what entry 1 should have
been. -/
theorem svg_ticks_never_assigned :
    getSvgTicks exampleSettings [geomResource 0 100] = some (List.replicate 6 none)
    ∧ svgTickAt 0 ((630 - 10) / 120) ((20 : ℚ) + 2) 20 1
        = { x := ((20 : ℚ) - 0) * ((630 - 10) / 120), height := (20 : ℚ) + 2, value := 20 }
    ∧ (some (svgTickAt 0 ((630 - 10) / 120) ((20 : ℚ) + 2) 20 1) : Option Tick) ≠ none := by
  refine ⟨?_, ?_, by simp⟩
  · have h6 : (6 : ℤ).toNat = 6 := rfl
    norm_num [getSvgTicks, geomResource, exampleSettings, getMaximumValue, ratCeil, ratFloor,
      jsMod, ratTrunc, arrayLength, List.foldl, h6]
  · norm_num [svgTickAt, getXPosition]

/-! ## C8 -/

/-- C8: the chart height is `(count + 1) * (barHeight + padding) + offset.x`,
so adding one resource adds exactly `barHeight + padding`; checked concretely
on the example settings with one resource (height 54). -/
theorem svg_height_formula :
    (∀ (settings : Settings) (resources : List NormalizedResource),
        getSvgHeight settings resources
          = ((resources.length : ℚ) + 1) * (settings.barHeight + settings.padding)
            + settings.offset.x)
    ∧ (∀ (settings : Settings) (resources : List NormalizedResource)
          (r : NormalizedResource),
        getSvgHeight settings (r :: resources) - getSvgHeight settings resources
          = settings.barHeight + settings.padding)
    ∧ getSvgHeight exampleSettings [geomResource 0 100] = 54 := by
  refine ⟨fun settings resources => rfl, fun settings resources r => ?_, ?_⟩
  · unfold getSvgHeight
    rw [List.length_cons]
    push_cast
    ring
  · norm_num [getSvgHeight, exampleSettings]

/-! ## C9 -/

/-- C9: when the maximum the fold computes equals the first resource's start
(`maximum == minimum`), the step `ceil((maximum - minimum) / 5)` is 0 and tick
generation fails (`maximum % 0` is NaN, which reaches `new Array` and
throws), with no guard in the geometry builder; checked concretely on a
single resource of start 100 and duration 0. -/
theorem zero_span_tick_failure :
    (∀ (settings : Settings) (r0 : NormalizedResource) (rs : List NormalizedResource),
        (r0 :: rs).foldl getMaximumValue 0 = r0.start →
        ((ratCeil (((r0 :: rs).foldl getMaximumValue 0 - r0.start) / 5) : ℤ) : ℚ) = 0
        ∧ getSvgTicks settings (r0 :: rs) = none)
    ∧ getSvgTicks exampleSettings [geomResource 100 0] = none := by
  constructor
  · intro settings r0 rs h
    have hstep :
        ((ratCeil (((r0 :: rs).foldl getMaximumValue 0 - r0.start) / 5) : ℤ) : ℚ) = 0 := by
      rw [h]
      norm_num [ratCeil, ratFloor]
    refine ⟨hstep, ?_⟩
    simp only [getSvgTicks]
    rw [hstep]
    simp [jsMod]
  · norm_num [getSvgTicks, geomResource, exampleSettings, getMaximumValue, ratCeil, ratFloor,
      jsMod, ratTrunc, arrayLength, List.foldl]

end Waterfall
